import Mathlib

/-! Shallow embedding of the core logic of the react-clean-architecture-template
repository: entity validation and immutable updates (`User`, `Product`), the four
user use cases (`CreateUser`, `GetUser`, `UpdateUser`, `ListUsers`) and the HTTP
client retry/timeout logic.

Modelling conventions:
* JS `Date` values are milliseconds since the epoch, modelled as `Nat`; the
  current clock reading is passed explicitly to every operation that calls
  `new Date()`, and a fresh `crypto.randomUUID()` is passed explicitly as well.
* JS `number` is modelled as `Rat` (exact rational arithmetic).
* A thrown JS exception is the `.error` case of an `Except`; a rejected promise
  is the `.error` case of the `Except` that an `execute` embedding returns.
* `undefined` and optional values are `Option`; JS truthiness of strings and
  numbers is modelled explicitly (the empty string and `0` are falsy). -/

namespace RCA

/-- JS truthiness for an optional string: `undefined` and `""` are falsy. -/
def jsTruthyStr : Option String → Bool
  | none => false
  | some s => !(s == "")

/-- `x || d` for an optional JS string (falsy values replaced by the default). -/
def jsOrStr (x : Option String) (d : String) : String :=
  match x with
  | none => d
  | some s => if s == "" then d else s

/-- `x || d` for an optional JS number (`undefined` and `0` are falsy). -/
def jsOrRat (x : Option Rat) (d : Rat) : Rat :=
  match x with
  | none => d
  | some v => if v = 0 then d else v

/-- `x || d` for an optional JS natural (`undefined` and `0` are falsy). -/
def jsOrNat (x : Option Nat) (d : Nat) : Nat :=
  match x with
  | none => d
  | some v => if v = 0 then d else v

/-- JS truthiness for an optional boolean: only `true` is truthy
(`undefined` and `false` are falsy). -/
def jsTruthyBool : Option Bool → Bool
  | none => false
  | some b => b

/-- `s.trim().length === 0`: the string consists of whitespace only
(this includes the empty string). -/
def jsBlank (s : String) : Bool :=
  s.toList.all Char.isWhitespace

/-- Split a character list at every occurrence of the separator character
(the list-level counterpart of splitting a string at one character). -/
def splitOnChar (sep : Char) : List Char → List (List Char)
  | [] => [[]]
  | c :: cs =>
    if c = sep then
      [] :: splitOnChar sep cs
    else
      match splitOnChar sep cs with
      | [] => [[c]]
      | p :: ps => (c :: p) :: ps

/-- The error values carried by thrown exceptions and failure `Result`s:
`ValidationError(message, field)`, `DomainError(message, code)`,
`NotFoundError(resource, id)` from `shared/types/common.ts`, plus a plain
`new Error(message)`. -/
inductive ErrVal where
  | validationError (message field : String)
  | domainError (message code : String)
  | notFoundError (resource id : String)
  | genericError (message : String)
deriving DecidableEq, Repr

/-- Whether an error value is a `ValidationError`. -/
def ErrVal.isValidation : ErrVal → Bool
  | .validationError _ _ => true
  | _ => false

/-- `Result<T, E = Error>` from `shared/types/common.ts`:
`{success:true,data} | {success:false,error}`. -/
inductive UResult (α : Type) where
  | success (data : α)
  | failure (error : ErrVal)
deriving DecidableEq, Repr

/-- A value thrown in JS (or carried by a rejected promise): either an `Error`
instance (all error classes of the repository extend `Error`) or a non-`Error`
value. -/
inductive Thrown where
  | error (e : ErrVal)
  | nonError
deriving DecidableEq, Repr

/-- The observed outcome of awaiting one asynchronous dependency call:
the promise resolves with a value or rejects with a thrown value. -/
inductive AsyncOutcome (α : Type) where
  | resolves (a : α)
  | rejects (t : Thrown)
deriving DecidableEq, Repr

/-- The `catch (error)` arm shared by all four use cases:
`error instanceof Error ? error : new Error(fallbackMsg)`, wrapped in a
failure `Result`. -/
def jsCatchErr (fallbackMsg : String) : Thrown → UResult α
  | .error e => .failure e
  | .nonError => .failure (.genericError fallbackMsg)

/-- A `try { body } catch` around a complete use-case body: a thrown value is
turned into a resolved failure `Result`, so the returned promise resolves. -/
def jsTryCatch (fallbackMsg : String) : Except Thrown (UResult α) → Except Thrown (UResult α)
  | .ok r => .ok r
  | .error t => .ok (jsCatchErr fallbackMsg t)

/-! ## Validation rules (`shared/constants/app.ts`, `User.ts`)

`VALIDATION_RULES.EMAIL_REGEX` is `/^[^\s@]+@[^\s@]+\.[^\s@]+$/`.
The same literal regex is also used by `CreateUserUseCase.validateInput`. -/

/-- One `[^\s@]` regex atom: any character that is neither whitespace nor `@`. -/
def emailAtomChar (c : Char) : Bool := !c.isWhitespace && c != '@'

/-- `EMAIL_REGEX.test s`.  The regex `/^[^\s@]+@[^\s@]+\.[^\s@]+$/` matches `s`
exactly when `s = a ++ "@" ++ b ++ "." ++ c` with `a`, `b`, `c` nonempty strings
of `emailAtomChar`s (`b` and `c` may themselves contain further dots).  Since
none of `a`, `b`, `c` may contain `@`, the string has exactly one `@`
(so `splitOn "@"` yields exactly two parts), and after the `@` there must be a
dot at an interior position of the domain part. -/
def emailRegexTest (s : String) : Bool :=
  match splitOnChar '@' s.toList with
  | [a, d] =>
    decide (0 < a.length) && a.all emailAtomChar &&
    d.all emailAtomChar &&
    ((d.drop 1).dropLast.contains '.')
  | _ => false

/-- `User.validateEmail` (`User.ts`): throws `ValidationError` when the email is
falsy/blank or fails the regex. -/
def validateEmail (email : String) : Except ErrVal Unit :=
  if email.length = 0 ∨ jsBlank email = true then
    .error (.validationError "E-Mail ist erforderlich" "email")
  else if !(emailRegexTest email) then
    .error (.validationError "Ungueltige E-Mail-Adresse" "email")
  else
    .ok ()

/-- The apostrophe character (code point 39), allowed in names. -/
def apostrophe : Char := Char.ofNat 39

/-- The accented letters listed literally in the name regex of
`User.validateName`. -/
def accentedChars : List Char :=
  ['ä', 'ö', 'ü', 'Ä', 'Ö', 'Ü', 'ß', 'à', 'á', 'â', 'ã', 'å', 'æ', 'ç',
   'è', 'é', 'ê', 'ë', 'ì', 'í', 'î', 'ï', 'ð', 'ñ', 'ò', 'ó', 'ô', 'õ',
   'ø', 'ù', 'ú', 'û', 'ý', 'þ', 'ÿ']

/-- One character of the name character class
`[a-zA-ZäöüÄÖÜß...\s-']`: ASCII letters, the listed accented letters,
whitespace, hyphen and apostrophe. -/
def nameChar (c : Char) : Bool :=
  (decide ('a' ≤ c) && decide (c ≤ 'z')) ||
  (decide ('A' ≤ c) && decide (c ≤ 'Z')) ||
  accentedChars.contains c ||
  c.isWhitespace || c == '-' || c == apostrophe

/-- `User.validateName` (`User.ts`): required, 2 to 50 characters, only
letters / spaces / hyphens / apostrophes. -/
def validateName (name fieldName : String) : Except ErrVal Unit :=
  if name.length = 0 ∨ jsBlank name = true then
    .error (.validationError (fieldName ++ " ist erforderlich") fieldName.toLower)
  else if name.length < 2 then
    .error (.validationError (fieldName ++ " muss mindestens 2 Zeichen haben") fieldName.toLower)
  else if name.length > 50 then
    .error (.validationError (fieldName ++ " darf maximal 50 Zeichen haben") fieldName.toLower)
  else if !(name.toList.all nameChar) then
    .error (.validationError
      (fieldName ++ " darf nur Buchstaben, Leerzeichen, Bindestriche und Apostrophe enthalten")
      fieldName.toLower)
  else
    .ok ()

/-! ## The `User` entity (`domain/entities/User.ts`) -/

/-- `UserProps`. -/
structure UserProps where
  id : String
  email : String
  firstName : String
  lastName : String
  avatar : Option String
  isActive : Bool
  roles : List String
  lastLoginAt : Option Nat
  createdAt : Nat
  updatedAt : Nat
deriving DecidableEq, Repr

/-- The private `User` constructor: validates email and both names and
otherwise stores the props unchanged (the class is an immutable wrapper
around its props). -/
def mkUser (props : UserProps) : Except ErrVal UserProps :=
  match validateEmail props.email with
  | .error e => .error e
  | .ok _ =>
    match validateName props.firstName "Vorname" with
    | .error e => .error e
    | .ok _ =>
      match validateName props.lastName "Nachname" with
      | .error e => .error e
      | .ok _ => .ok props

/-- `User.create`: fills defaults (`isActive ?? true`, `roles ?? ["user"]`),
a fresh `uuid` and `now` for both timestamps, then runs the constructor. -/
def User.create (email firstName lastName : String) (avatar : Option String)
    (isActive : Option Bool) (roles : Option (List String))
    (lastLoginAt : Option Nat) (uuid : String) (now : Nat) :
    Except ErrVal UserProps :=
  mkUser
    { id := uuid, email, firstName, lastName, avatar
      isActive := isActive.getD true
      roles := roles.getD ["user"]
      lastLoginAt
      createdAt := now, updatedAt := now }

/-- `User.fromPersistence`: runs the constructor on the stored props. -/
def User.fromPersistence (props : UserProps) : Except ErrVal UserProps :=
  mkUser props

/-- The updates argument of `User.updateProfile`. -/
structure ProfileUpdates where
  firstName : Option String
  lastName : Option String
  email : Option String
  avatar : Option String
deriving DecidableEq, Repr

/-- Shallow merge `{...this.props, ...updates}` of `User.updateProfile`:
a key present in `updates` overwrites the stored value. -/
def mergeProfile (u : UserProps) (up : ProfileUpdates) (newUpdatedAt : Nat) : UserProps :=
  { u with
    firstName := up.firstName.getD u.firstName
    lastName := up.lastName.getD u.lastName
    email := up.email.getD u.email
    avatar := match up.avatar with
      | none => u.avatar
      | some a => some a
    updatedAt := newUpdatedAt }

/-- `User.updateProfile`: validates each truthy update, then builds the merged
props; the new `updatedAt` is `now`, bumped by one millisecond when `now`
equals the current `updatedAt` (the source comment: ensure `updatedAt` is
different from the original).  The constructor re-validates everything. -/
def User.updateProfile (u : UserProps) (up : ProfileUpdates) (now : Nat) :
    Except ErrVal UserProps :=
  match (if jsTruthyStr up.firstName then validateName (up.firstName.getD "") "Vorname" else .ok ()) with
  | .error e => .error e
  | .ok _ =>
    match (if jsTruthyStr up.lastName then validateName (up.lastName.getD "") "Nachname" else .ok ()) with
    | .error e => .error e
    | .ok _ =>
      match (if jsTruthyStr up.email then validateEmail (up.email.getD "") else .ok ()) with
      | .error e => .error e
      | .ok _ =>
        mkUser (mergeProfile u up (if now = u.updatedAt then now + 1 else now))

/-- `User.changeEmail`. -/
def User.changeEmail (u : UserProps) (newEmail : String) (now : Nat) :
    Except ErrVal UserProps :=
  match validateEmail newEmail with
  | .error e => .error e
  | .ok _ =>
    if newEmail = u.email then
      .error (.domainError "Neue E-Mail ist identisch mit der aktuellen E-Mail" "EMAIL_UNCHANGED")
    else
      mkUser { u with email := newEmail, updatedAt := now }

/-- `User.activate`. -/
def User.activate (u : UserProps) (now : Nat) : Except ErrVal UserProps :=
  if u.isActive then
    .error (.domainError "Benutzer ist bereits aktiv" "USER_ALREADY_ACTIVE")
  else
    mkUser { u with isActive := true, updatedAt := now }

/-- `User.deactivate`. -/
def User.deactivate (u : UserProps) (now : Nat) : Except ErrVal UserProps :=
  if !u.isActive then
    .error (.domainError "Benutzer ist bereits deaktiviert" "USER_ALREADY_INACTIVE")
  else
    mkUser { u with isActive := false, updatedAt := now }

/-- `User.updateLastLogin`. -/
def User.updateLastLogin (u : UserProps) (now : Nat) : Except ErrVal UserProps :=
  mkUser { u with lastLoginAt := some now, updatedAt := now }

/-- `User.addRole`. -/
def User.addRole (u : UserProps) (role : String) (now : Nat) : Except ErrVal UserProps :=
  if u.roles.contains role then
    .error (.domainError ("Benutzer hat bereits die Rolle: " ++ role) "ROLE_ALREADY_EXISTS")
  else
    mkUser { u with roles := u.roles ++ [role], updatedAt := now }

/-- `User.removeRole`. -/
def User.removeRole (u : UserProps) (role : String) (now : Nat) : Except ErrVal UserProps :=
  if !(u.roles.contains role) then
    .error (.domainError ("Benutzer hat die Rolle nicht: " ++ role) "ROLE_NOT_FOUND")
  else
    mkUser { u with roles := u.roles.filter (fun r => r ≠ role), updatedAt := now }

/-- The name part of the `User` invariant claimed by the specification:
nonempty, between 2 and 50 characters, only letters / spaces / hyphens /
apostrophes. -/
def nameOk (s : String) : Bool :=
  decide (s ≠ "") && decide (2 ≤ s.length) && decide (s.length ≤ 50) &&
  s.toList.all nameChar

/-- The `User` invariant claimed by the specification: the email matches
`EMAIL_REGEX` and both names satisfy `nameOk`. -/
def userInvariant (u : UserProps) : Prop :=
  emailRegexTest u.email = true ∧ nameOk u.firstName = true ∧ nameOk u.lastName = true

instance (u : UserProps) : Decidable (userInvariant u) := by
  unfold userInvariant; infer_instance

/-! ## The `Product` entity (`domain/entities/Product.ts`) -/

/-- `ProductProps` (JS numbers modelled as `Rat`). -/
structure ProductProps where
  id : String
  name : String
  description : String
  price : Rat
  currency : String
  categoryId : String
  images : List String
  inStock : Rat
  isActive : Bool
  tags : List String
  createdAt : Nat
  updatedAt : Nat
deriving DecidableEq, Repr

/-- `Product.validateName`: required, 2 to 100 characters. -/
def validateProductName (name : String) : Except ErrVal Unit :=
  if name.length = 0 ∨ jsBlank name = true then
    .error (.validationError "Produktname ist erforderlich" "name")
  else if name.length < 2 then
    .error (.validationError "Produktname muss mindestens 2 Zeichen haben" "name")
  else if name.length > 100 then
    .error (.validationError "Produktname darf maximal 100 Zeichen haben" "name")
  else
    .ok ()

/-- `Product.validateDescription`: required, 10 to 1000 characters. -/
def validateDescription (description : String) : Except ErrVal Unit :=
  if description.length = 0 ∨ jsBlank description = true then
    .error (.validationError "Produktbeschreibung ist erforderlich" "description")
  else if description.length < 10 then
    .error (.validationError "Produktbeschreibung muss mindestens 10 Zeichen haben" "description")
  else if description.length > 1000 then
    .error (.validationError "Produktbeschreibung darf maximal 1000 Zeichen haben" "description")
  else
    .ok ()

/-- `Product.validatePrice`: at least 0, at most 999999.99. -/
def validatePrice (price : Rat) : Except ErrVal Unit :=
  if price < 0 then
    .error (.validationError "Preis muss mindestens 0 sein" "price")
  else if price > mkRat 99999999 100 then
    .error (.validationError "Preis ist zu hoch" "price")
  else
    .ok ()

/-- `Product.validateStock`: nonnegative and an integer
(`Number.isInteger` on a rational: denominator 1). -/
def validateStock (stock : Rat) : Except ErrVal Unit :=
  if stock < 0 then
    .error (.validationError "Lagerbestand muss mindestens 0 sein" "inStock")
  else if !(stock.den = 1 : Bool) then
    .error (.validationError "Lagerbestand muss eine ganze Zahl sein" "inStock")
  else
    .ok ()

/-- The private `Product` constructor: validates name, description, price and
stock, otherwise stores the props unchanged. -/
def mkProduct (props : ProductProps) : Except ErrVal ProductProps :=
  match validateProductName props.name with
  | .error e => .error e
  | .ok _ =>
    match validateDescription props.description with
    | .error e => .error e
    | .ok _ =>
      match validatePrice props.price with
      | .error e => .error e
      | .ok _ =>
        match validateStock props.inStock with
        | .error e => .error e
        | .ok _ => .ok props

/-- `Product.create`. -/
def Product.create (name description : String) (price : Rat)
    (currency categoryId : String) (images : List String) (inStock : Rat)
    (isActive : Bool) (tags : List String) (uuid : String) (now : Nat) :
    Except ErrVal ProductProps :=
  mkProduct
    { id := uuid, name, description, price, currency, categoryId, images,
      inStock, isActive, tags, createdAt := now, updatedAt := now }

/-- `Product.fromPersistence`. -/
def Product.fromPersistence (props : ProductProps) : Except ErrVal ProductProps :=
  mkProduct props

/-- The updates argument of `Product.updateBasicInfo`. -/
structure BasicInfoUpdates where
  name : Option String
  description : Option String
  price : Option Rat
  categoryId : Option String
deriving DecidableEq, Repr

/-- `Product.updateBasicInfo`: validates truthy name/description updates and a
present price update, then spreads the updates over the props. -/
def Product.updateBasicInfo (p : ProductProps) (up : BasicInfoUpdates) (now : Nat) :
    Except ErrVal ProductProps :=
  match (if jsTruthyStr up.name then validateProductName (up.name.getD "") else .ok ()) with
  | .error e => .error e
  | .ok _ =>
    match (if jsTruthyStr up.description then validateDescription (up.description.getD "") else .ok ()) with
    | .error e => .error e
    | .ok _ =>
      match (match up.price with | some pr => validatePrice pr | none => .ok ()) with
      | .error e => .error e
      | .ok _ =>
        mkProduct
          { p with
            name := up.name.getD p.name
            description := up.description.getD p.description
            price := up.price.getD p.price
            categoryId := up.categoryId.getD p.categoryId
            updatedAt := now }

/-- `Product.updateStock`. -/
def Product.updateStock (p : ProductProps) (newStock : Rat) (now : Nat) :
    Except ErrVal ProductProps :=
  match validateStock newStock with
  | .error e => .error e
  | .ok _ => mkProduct { p with inStock := newStock, updatedAt := now }

/-- `Product.reduceStock`. -/
def Product.reduceStock (p : ProductProps) (quantity : Rat) (now : Nat) :
    Except ErrVal ProductProps :=
  if quantity ≤ 0 then
    .error (.domainError "Menge muss positiv sein" "INVALID_QUANTITY")
  else if p.inStock < quantity then
    .error (.domainError "Nicht genuegend Lagerbestand" "INSUFFICIENT_STOCK")
  else
    mkProduct { p with inStock := p.inStock - quantity, updatedAt := now }

/-- `Product.addStock`. -/
def Product.addStock (p : ProductProps) (quantity : Rat) (now : Nat) :
    Except ErrVal ProductProps :=
  if quantity ≤ 0 then
    .error (.domainError "Menge muss positiv sein" "INVALID_QUANTITY")
  else
    mkProduct { p with inStock := p.inStock + quantity, updatedAt := now }

/-- `Product.addImage`. -/
def Product.addImage (p : ProductProps) (imageUrl : String) (now : Nat) :
    Except ErrVal ProductProps :=
  if imageUrl.length = 0 ∨ jsBlank imageUrl = true then
    .error (.validationError "Bild-URL ist erforderlich" "imageUrl")
  else if p.images.contains imageUrl then
    .error (.domainError "Bild ist bereits vorhanden" "IMAGE_ALREADY_EXISTS")
  else
    mkProduct { p with images := p.images ++ [imageUrl], updatedAt := now }

/-- `Product.removeImage`. -/
def Product.removeImage (p : ProductProps) (imageUrl : String) (now : Nat) :
    Except ErrVal ProductProps :=
  if !(p.images.contains imageUrl) then
    .error (.domainError "Bild nicht gefunden" "IMAGE_NOT_FOUND")
  else
    mkProduct { p with images := p.images.filter (fun img => img ≠ imageUrl), updatedAt := now }

/-- `Product.addTag`: the tag is normalized by trim + lowercase for the checks
and stored trimmed. -/
def Product.addTag (p : ProductProps) (tag : String) (now : Nat) :
    Except ErrVal ProductProps :=
  if jsBlank tag = true then
    .error (.validationError "Tag ist erforderlich" "tag")
  else if p.tags.any (fun t => t.toLower == tag.trim.toLower) then
    .error (.domainError "Tag ist bereits vorhanden" "TAG_ALREADY_EXISTS")
  else
    mkProduct { p with tags := p.tags ++ [tag.trim], updatedAt := now }

/-- `Product.removeTag`: drops the first tag matching case-insensitively. -/
def Product.removeTag (p : ProductProps) (tag : String) (now : Nat) :
    Except ErrVal ProductProps :=
  match p.tags.findIdx? (fun t => t.toLower == tag.toLower) with
  | none => .error (.domainError "Tag nicht gefunden" "TAG_NOT_FOUND")
  | some tagIndex =>
    mkProduct { p with tags := p.tags.eraseIdx tagIndex, updatedAt := now }

/-- `Product.activate`. -/
def Product.activate (p : ProductProps) (now : Nat) : Except ErrVal ProductProps :=
  if p.isActive then
    .error (.domainError "Produkt ist bereits aktiv" "PRODUCT_ALREADY_ACTIVE")
  else
    mkProduct { p with isActive := true, updatedAt := now }

/-- `Product.deactivate`. -/
def Product.deactivate (p : ProductProps) (now : Nat) : Except ErrVal ProductProps :=
  if !p.isActive then
    .error (.domainError "Produkt ist bereits deaktiviert" "PRODUCT_ALREADY_INACTIVE")
  else
    mkProduct { p with isActive := false, updatedAt := now }

/-- The `Product` invariant claimed by the specification: price in
`[0, 999999.99]`, stock a nonnegative integer, name and description within
their length bounds. -/
def productInvariant (p : ProductProps) : Prop :=
  0 ≤ p.price ∧ p.price ≤ mkRat 99999999 100 ∧
  0 ≤ p.inStock ∧ p.inStock.den = 1 ∧
  2 ≤ p.name.length ∧ p.name.length ≤ 100 ∧
  10 ≤ p.description.length ∧ p.description.length ≤ 1000

instance (p : ProductProps) : Decidable (productInvariant p) := by
  unfold productInvariant; infer_instance

/-! ## Use cases (`domain/use-cases`)

Every `execute` is embedded as a pure function of the input and of a record
describing the behaviour of each injected dependency on this execution
(the value each awaited promise resolves or rejects with).  The embedding
returns the promise of `execute` — `Except Thrown (UResult output)`, where
`.error` would be a rejection crossing the async boundary — together with the
ordered list of dependency methods actually invoked. -/

/-- `CreateUserInput`. -/
structure CreateUserInput where
  email : String
  firstName : String
  lastName : String
  password : String
deriving DecidableEq, Repr

/-- Behaviour of the dependencies of `CreateUserUseCase` during one execution,
plus the clock and uuid read by `User.create`. -/
structure CreateUserDeps where
  emailExists : AsyncOutcome (UResult Bool)
  hashResult : AsyncOutcome String
  save : AsyncOutcome (UResult UserProps)
  sendWelcomeEmail : AsyncOutcome Unit
  uuid : String
  now : Nat
deriving DecidableEq, Repr

/-- One dependency method invoked by `CreateUserUseCase`. -/
inductive CreateUserCall where
  | emailExists
  | hashPassword
  | save
  | sendWelcomeEmail
deriving DecidableEq, Repr

/-- `CreateUserUseCase.validateInput`: email required and matching the literal
email regex (the same pattern as `VALIDATION_RULES.EMAIL_REGEX`), first and
last name required, password required with at least 8 characters. -/
def CreateUserUseCase.validateInput (i : CreateUserInput) : UResult Unit :=
  if i.email.length = 0 ∨ jsBlank i.email = true then
    .failure (.validationError "E-Mail ist erforderlich" "email")
  else if !(emailRegexTest i.email) then
    .failure (.validationError "Ungueltige E-Mail-Adresse" "email")
  else if i.firstName.length = 0 ∨ jsBlank i.firstName = true then
    .failure (.validationError "Vorname ist erforderlich" "firstName")
  else if i.lastName.length = 0 ∨ jsBlank i.lastName = true then
    .failure (.validationError "Nachname ist erforderlich" "lastName")
  else if i.password.length = 0 then
    .failure (.validationError "Passwort ist erforderlich" "password")
  else if i.password.length < 8 then
    .failure (.validationError "Passwort muss mindestens 8 Zeichen haben" "password")
  else
    .success ()

/-- The body of `CreateUserUseCase.execute` (the code inside the `try`).
The welcome email is sent fire-and-forget: `sendWelcomeEmailAsync` is invoked
but not awaited, and it swallows any rejection in its own `try`/`catch`, so
its outcome can influence neither the returned `Result` nor the promise. -/
def CreateUserUseCase.executeBody (i : CreateUserInput) (d : CreateUserDeps) :
    Except Thrown (UResult UserProps) × List CreateUserCall :=
  match CreateUserUseCase.validateInput i with
  | .failure e => (.ok (.failure e), [])
  | .success _ =>
    match d.emailExists with
    | .rejects t => (.error t, [.emailExists])
    | .resolves (.failure e) => (.ok (.failure e), [.emailExists])
    | .resolves (.success true) =>
      (.ok (.failure (.domainError "E-Mail-Adresse ist bereits registriert" "EMAIL_ALREADY_EXISTS")),
       [.emailExists])
    | .resolves (.success false) =>
      match d.hashResult with
      | .rejects t => (.error t, [.emailExists, .hashPassword])
      | .resolves _hashed =>
        match User.create i.email i.firstName i.lastName none (some true)
            (some ["user"]) none d.uuid d.now with
        | .error e => (.error (.error e), [.emailExists, .hashPassword])
        | .ok _user =>
          match d.save with
          | .rejects t => (.error t, [.emailExists, .hashPassword, .save])
          | .resolves (.failure e) =>
            (.ok (.failure e), [.emailExists, .hashPassword, .save])
          | .resolves (.success saved) =>
            (.ok (.success saved),
             [.emailExists, .hashPassword, .save, .sendWelcomeEmail])

/-- `CreateUserUseCase.execute`: the body wrapped in the outer `try`/`catch`. -/
def CreateUserUseCase.execute (i : CreateUserInput) (d : CreateUserDeps) :
    Except Thrown (UResult UserProps) × List CreateUserCall :=
  let r := CreateUserUseCase.executeBody i d
  (jsTryCatch "Unbekannter Fehler beim Erstellen des Benutzers" r.1, r.2)

/-- `GetUserInput`. -/
structure GetUserInput where
  id : String
deriving DecidableEq, Repr

/-- Behaviour of the single dependency of `GetUserUseCase`:
`userRepository.findById` resolves with `Result<User | null>`. -/
structure GetUserDeps where
  findById : AsyncOutcome (UResult (Option UserProps))
deriving DecidableEq, Repr

/-- One dependency method invoked by `GetUserUseCase`. -/
inductive GetUserCall where
  | findById
deriving DecidableEq, Repr

/-- The body of `GetUserUseCase.execute` (the code inside the `try`). -/
def GetUserUseCase.executeBody (i : GetUserInput) (d : GetUserDeps) :
    Except Thrown (UResult UserProps) × List GetUserCall :=
  if i.id.length = 0 ∨ jsBlank i.id = true then
    (.ok (.failure (.domainError "Benutzer-ID ist erforderlich" "INVALID_INPUT")), [])
  else
    match d.findById with
    | .rejects t => (.error t, [.findById])
    | .resolves (.failure e) => (.ok (.failure e), [.findById])
    | .resolves (.success none) =>
      (.ok (.failure (.notFoundError "Benutzer" i.id)), [.findById])
    | .resolves (.success (some user)) => (.ok (.success user), [.findById])

/-- `GetUserUseCase.execute`: the body wrapped in the outer `try`/`catch`. -/
def GetUserUseCase.execute (i : GetUserInput) (d : GetUserDeps) :
    Except Thrown (UResult UserProps) × List GetUserCall :=
  let r := GetUserUseCase.executeBody i d
  (jsTryCatch "Unbekannter Fehler beim Abrufen des Benutzers" r.1, r.2)

/-- The updates record of `UpdateUserInput`. -/
structure UpdateUserUpdates where
  firstName : Option String
  lastName : Option String
  avatar : Option String
deriving DecidableEq, Repr

/-- `UpdateUserInput`. -/
structure UpdateUserInput where
  id : String
  updates : UpdateUserUpdates
deriving DecidableEq, Repr

/-- Behaviour of the dependencies of `UpdateUserUseCase`.  The optional audit
logger is `none` when absent; `now` is the clock read inside
`User.updateProfile`. -/
structure UpdateUserDeps where
  findById : AsyncOutcome (UResult (Option UserProps))
  update : AsyncOutcome (UResult UserProps)
  logUserUpdate : Option (AsyncOutcome Unit)
  now : Nat
deriving DecidableEq, Repr

/-- One dependency method invoked by `UpdateUserUseCase`. -/
inductive UpdateUserCall where
  | findById
  | update
  | logUserUpdate
deriving DecidableEq, Repr

/-- `UpdateUserUseCase.validateInput` collects error strings in source order
and fails with one `DomainError` of code `VALIDATION_ERROR` when any exist.
The `new URL(avatar)` browser primitive is abstracted by the Boolean verdict
`urlValid`. -/
def UpdateUserUseCase.validateInput (urlValid : String → Bool) (i : UpdateUserInput) :
    UResult Unit :=
  let errors : List String :=
    (if i.id.length = 0 ∨ jsBlank i.id = true then ["Benutzer-ID ist erforderlich"] else []) ++
    (if i.updates.firstName = none ∧ i.updates.lastName = none ∧ i.updates.avatar = none then
      ["Mindestens eine Aenderung ist erforderlich"] else []) ++
    (match i.updates.firstName with
     | some fn =>
       (if jsBlank fn = true then ["Vorname darf nicht leer sein"] else []) ++
       (if fn.length > 50 then ["Vorname darf maximal 50 Zeichen haben"] else [])
     | none => []) ++
    (match i.updates.lastName with
     | some ln =>
       (if jsBlank ln = true then ["Nachname darf nicht leer sein"] else []) ++
       (if ln.length > 50 then ["Nachname darf maximal 50 Zeichen haben"] else [])
     | none => []) ++
    (match i.updates.avatar with
     | some av =>
       if av.length > 0 ∧ !(urlValid av) then ["Avatar-URL ist ungueltig"] else []
     | none => [])
  if errors ≠ [] then
    .failure (.domainError (String.intercalate ", " errors) "VALIDATION_ERROR")
  else
    .success ()

/-- `UpdateUserUseCase.hasChanges`. -/
def UpdateUserUseCase.hasChanges (u : UserProps) (up : UpdateUserUpdates) : Bool :=
  (match up.firstName with | some f => !(f == u.firstName) | none => false) ||
  (match up.lastName with | some l => !(l == u.lastName) | none => false) ||
  (match up.avatar with | some a => !(some a == u.avatar) | none => false)

/-- `UpdateUserUseCase.logChanges` invokes the audit logger exactly when some
logged field differs between the old and the new user. -/
def UpdateUserUseCase.changesNonempty (oldU newU : UserProps) : Bool :=
  !(oldU.firstName == newU.firstName) || !(oldU.lastName == newU.lastName) ||
  !(oldU.avatar == newU.avatar)

/-- The body of `UpdateUserUseCase.execute` (the code inside the `try`).
`logChanges` awaits the audit logger inside its own `try`/`catch`, so a
rejecting logger is logged and swallowed, never thrown. -/
def UpdateUserUseCase.executeBody (urlValid : String → Bool)
    (i : UpdateUserInput) (d : UpdateUserDeps) :
    Except Thrown (UResult UserProps) × List UpdateUserCall :=
  match UpdateUserUseCase.validateInput urlValid i with
  | .failure e => (.ok (.failure e), [])
  | .success _ =>
    match d.findById with
    | .rejects t => (.error t, [.findById])
    | .resolves (.failure e) => (.ok (.failure e), [.findById])
    | .resolves (.success none) =>
      (.ok (.failure (.notFoundError "Benutzer" i.id)), [.findById])
    | .resolves (.success (some currentUser)) =>
      if !(UpdateUserUseCase.hasChanges currentUser i.updates) then
        (.ok (.success currentUser), [.findById])
      else
        match User.updateProfile currentUser
            ⟨i.updates.firstName, i.updates.lastName, none, i.updates.avatar⟩ d.now with
        | .error e => (.error (.error e), [.findById])
        | .ok updatedUser =>
          match d.update with
          | .rejects t => (.error t, [.findById, .update])
          | .resolves (.failure e) => (.ok (.failure e), [.findById, .update])
          | .resolves (.success saved) =>
            match d.logUserUpdate with
            | none => (.ok (.success saved), [.findById, .update])
            | some _outcome =>
              if UpdateUserUseCase.changesNonempty currentUser updatedUser then
                (.ok (.success saved), [.findById, .update, .logUserUpdate])
              else
                (.ok (.success saved), [.findById, .update])

/-- `UpdateUserUseCase.execute`: the body wrapped in the outer `try`/`catch`. -/
def UpdateUserUseCase.execute (urlValid : String → Bool)
    (i : UpdateUserInput) (d : UpdateUserDeps) :
    Except Thrown (UResult UserProps) × List UpdateUserCall :=
  let r := UpdateUserUseCase.executeBody urlValid i d
  (jsTryCatch "Unbekannter Fehler beim Aktualisieren des Benutzers" r.1, r.2)

/-- `PaginationParams` (all fields optional). -/
structure PaginationParams where
  page : Option Rat
  pageSize : Option Rat
  sortBy : Option String
  sortOrder : Option String
deriving DecidableEq, Repr

/-- The fully-populated pagination record produced by `normalizePagination`
and handed to the repository. -/
structure NormalizedPagination where
  page : Rat
  pageSize : Rat
  sortBy : String
  sortOrder : String
deriving DecidableEq, Repr

/-- `FilterParams` (dates as epoch milliseconds). -/
structure FilterParams where
  search : Option String
  status : Option String
  dateFrom : Option Nat
  dateTo : Option Nat
deriving DecidableEq, Repr

/-- The empty filter object `{}` (spread of an undefined filter input). -/
def emptyFilters : FilterParams := ⟨none, none, none, none⟩

/-- `ListUsersInput`. -/
structure ListUsersInput where
  pagination : PaginationParams
  filters : Option FilterParams
  includeInactive : Option Bool
deriving DecidableEq, Repr

/-- Behaviour of the single dependency of `ListUsersUseCase`; the paginated
repository answer is passed through untouched, so its contents are modelled
as a plain list of users. -/
structure ListUsersDeps where
  findAll : AsyncOutcome (UResult (List UserProps))
deriving DecidableEq, Repr

/-- One dependency method invoked by `ListUsersUseCase`, with the arguments
it received. -/
inductive ListUsersCall where
  | findAll (pagination : NormalizedPagination) (filters : FilterParams)
deriving DecidableEq, Repr

/-- `ListUsersUseCase.normalizePagination`:
`page = Math.max(1, page || 1)`, `pageSize = Math.min(100, Math.max(5, pageSize || 10))`,
`sortBy = sortBy || "createdAt"`, `sortOrder = sortOrder || "desc"`. -/
def ListUsersUseCase.normalizePagination (p : PaginationParams) : NormalizedPagination :=
  { page := max 1 (jsOrRat p.page 1)
    pageSize := min 100 (max 5 (jsOrRat p.pageSize 10))
    sortBy := jsOrStr p.sortBy "createdAt"
    sortOrder := jsOrStr p.sortOrder "desc" }

/-- `ListUsersUseCase.validateFilters`. -/
def ListUsersUseCase.validateFilters (filters : Option FilterParams) : UResult Unit :=
  match filters with
  | none => .success ()
  | some f =>
    let errors : List String :=
      (if jsTruthyStr f.search ∧ (f.search.getD "").length > 100 then
        ["Suchbegriff darf maximal 100 Zeichen haben"] else []) ++
      (match f.dateFrom, f.dateTo with
       | some dFrom, some dTo =>
         if dFrom > dTo then ["Startdatum muss vor dem Enddatum liegen"] else []
       | _, _ => []) ++
      (if jsTruthyStr f.status ∧
          !(["active", "inactive", "all"].contains (f.status.getD "")) then
        ["Ungueltiger Status-Filter"] else [])
    if errors ≠ [] then
      .failure (.domainError (String.intercalate ", " errors) "VALIDATION_ERROR")
    else
      .success ()

/-- `ListUsersUseCase.buildFilters`: when `includeInactive` is falsy and
`filters.status` is falsy, force `status` to `"active"`; otherwise pass the
(copied) input filters through unchanged. -/
def ListUsersUseCase.buildFilters (inputFilters : Option FilterParams)
    (includeInactive : Option Bool) : FilterParams :=
  let filters := inputFilters.getD emptyFilters
  if !(jsTruthyBool includeInactive) && !(jsTruthyStr filters.status) then
    { filters with status := some "active" }
  else
    filters

/-- The body of `ListUsersUseCase.execute` (the code inside the `try`):
normalize pagination, validate filters, build the effective filters, then
query the repository. -/
def ListUsersUseCase.executeBody (i : ListUsersInput) (d : ListUsersDeps) :
    Except Thrown (UResult (List UserProps)) × List ListUsersCall :=
  match ListUsersUseCase.validateFilters i.filters with
  | .failure e => (.ok (.failure e), [])
  | .success _ =>
    match d.findAll with
    | .rejects t =>
      (.error t,
       [.findAll (ListUsersUseCase.normalizePagination i.pagination)
         (ListUsersUseCase.buildFilters i.filters i.includeInactive)])
    | .resolves (.failure e) =>
      (.ok (.failure e),
       [.findAll (ListUsersUseCase.normalizePagination i.pagination)
         (ListUsersUseCase.buildFilters i.filters i.includeInactive)])
    | .resolves (.success users) =>
      (.ok (.success users),
       [.findAll (ListUsersUseCase.normalizePagination i.pagination)
         (ListUsersUseCase.buildFilters i.filters i.includeInactive)])

/-- `ListUsersUseCase.execute`: the body wrapped in the outer `try`/`catch`. -/
def ListUsersUseCase.execute (i : ListUsersInput) (d : ListUsersDeps) :
    Except Thrown (UResult (List UserProps)) × List ListUsersCall :=
  let r := ListUsersUseCase.executeBody i d
  (jsTryCatch "Unbekannter Fehler beim Auflisten der Benutzer" r.1, r.2)

/-! ## The HTTP client (`infrastructure/api/HttpClient.ts`)

The parsed JSON value of a response body is modelled by `Json`; a body that is
empty or fails to parse is `Option.none` (the source sets `responseData` to
`null` in that case).  An attempt behaviour records how long the network takes
to settle this attempt and what `fetch` would deliver; the per-attempt timeout
controller aborts the attempt when the fetch is still pending at `timeout`
milliseconds, but only when its signal was actually passed to `fetch`, which
the source does only when the caller supplied no `AbortSignal`
(`signal: init.signal || controller.signal`). -/

/-- A parsed JSON value. -/
inductive Json where
  | null
  | bool (b : Bool)
  | num (q : Rat)
  | str (s : String)
  | arr (elems : List Json)
  | obj (fields : List (String × Json))

/-- Look up a key of a JSON object (first occurrence). -/
def Json.lookup (j : Json) (key : String) : Option Json :=
  match j with
  | .obj fields => (fields.find? (fun f => f.1 == key)).map (fun f => f.2)
  | _ => none

/-- `HttpClient.isApiResponse`: an object with a `data` key and a boolean
`success` key. -/
def isApiResponse (d : Json) : Bool :=
  (d.lookup "data").isSome &&
  (match d.lookup "success" with
   | some (.bool _) => true
   | _ => false)

/-- `HttpClient.isApiErrorResponse`: an object with an `error` key and
`success === false`. -/
def isApiErrorResponse (d : Json) : Bool :=
  (d.lookup "error").isSome &&
  (match d.lookup "success" with
   | some (.bool b) => !b
   | _ => false)

/-- `HttpClient.getErrorMessage`. -/
def getErrorMessage (status : Nat) : String :=
  if status = 400 then "Ungueltige Anfrage"
  else if status = 401 then "Nicht autorisiert"
  else if status = 403 then "Zugriff verweigert"
  else if status = 404 then "Ressource nicht gefunden"
  else if status = 500 then "Interner Serverfehler"
  else "HTTP-Fehler: " ++ toString status

/-- `HttpClient.getSuccessMessage`. -/
def getSuccessMessage (status : Nat) : Option String :=
  if status = 201 then some "Erfolgreich erstellt"
  else if status = 204 then some "Erfolgreich geloescht"
  else none

/-- An error-envelope object `{error: {code, message}, success: false}`. -/
def errJson (code message : String) : Json :=
  .obj [("error", .obj [("code", .str code), ("message", .str message)]),
        ("success", .bool false)]

/-- `HttpClient.createHttpError`: reuse a body that already is an
`ApiErrorResponse`, otherwise wrap the status into an `HTTP_<status>`
envelope carrying the body as details. -/
def createHttpError (status : Nat) (body : Option Json) : Json :=
  let d := body.getD .null
  if isApiErrorResponse d then d
  else
    .obj [("error", .obj [("code", .str ("HTTP_" ++ toString status)),
                          ("message", .str (getErrorMessage status)),
                          ("details", d)]),
          ("success", .bool false)]

/-- What `fetch` delivers when it settles: a response, or a rejection.
`typeErrorFetch` is a `TypeError` whose message contains `fetch` (the network
failure case), `abortError` an `Error` named `AbortError`, `otherError` any
other `Error` instance. -/
inductive FetchThrow where
  | typeErrorFetch
  | abortError
  | otherError (msg : String)
deriving DecidableEq, Repr

/-- What one attempt of `fetch` would deliver, absent a timeout abort. -/
inductive FetchOutcome where
  | response (status : Nat) (body : Option Json)
  | failure (t : FetchThrow)

/-- A value reaching the `catch` of `executeWithRetry`: a thrown `Error`
instance from `fetch`, or the plain `ApiErrorResponse` object thrown by
`handleResponse` (which is not an `Error` instance). -/
inductive ThrownVal where
  | jsError (t : FetchThrow)
  | plainObj (j : Json)

/-- `HttpClient.shouldRetry`: retry exactly on a fetch `TypeError` or an
`AbortError`; a thrown plain object (the non-2xx envelope) and any other
error are not retried. -/
def shouldRetry : ThrownVal → Bool
  | .jsError .typeErrorFetch => true
  | .jsError .abortError => true
  | _ => false

/-- `HttpClient.createApiError`. -/
def createApiError : ThrownVal → Json
  | .jsError .typeErrorFetch =>
    errJson "NETWORK_ERROR" "Netzwerkfehler: Bitte pruefen Sie Ihre Internetverbindung"
  | .jsError .abortError =>
    errJson "TIMEOUT_ERROR" "Anfrage-Timeout: Der Server antwortet nicht"
  | .jsError (.otherError msg) => errJson "UNKNOWN_ERROR" msg
  | .plainObj _ => errJson "UNKNOWN_ERROR" "Unbekannter Fehler"

/-- `HttpClient.handleResponse`: non-2xx throws the `createHttpError` object;
a 2xx body already in `ApiResponse` shape is returned as-is, anything else is
wrapped into `{data, success: true, message?}`. -/
def handleResponse (status : Nat) (body : Option Json) : Except ThrownVal Json :=
  if ¬(200 ≤ status ∧ status ≤ 299) then
    .error (.plainObj (createHttpError status body))
  else if isApiResponse (body.getD .null) then
    .ok (body.getD .null)
  else
    .ok (.obj ([("data", body.getD .null), ("success", .bool true)] ++
      (match getSuccessMessage status with
       | some m => [("message", .str m)]
       | none => [])))

/-- Client configuration after the constructor has applied its defaults. -/
structure HttpConfig where
  timeout : Nat
  retryAttempts : Nat
  retryDelay : Nat
deriving DecidableEq, Repr

/-- The `HttpClientOptions` fields relevant to retry/timeout. -/
structure HttpClientOptions where
  timeout : Option Nat
  retryAttempts : Option Nat
  retryDelay : Option Nat
deriving DecidableEq, Repr

/-- The `HttpClient` constructor defaults: `options.x || API_CONFIG.x` with
`API_CONFIG = {timeout: 10000, retryAttempts: 3, retryDelay: 1000}`. -/
def HttpClient.mkConfig (o : HttpClientOptions) : HttpConfig :=
  { timeout := jsOrNat o.timeout 10000
    retryAttempts := jsOrNat o.retryAttempts 3
    retryDelay := jsOrNat o.retryDelay 1000 }

/-- The per-request `RequestOptions` fields relevant here: the per-request
`timeout` (accepted by the interface) and whether the caller supplied an
`AbortSignal`. -/
structure RequestOptions where
  timeout : Option Nat
  signal : Bool
deriving DecidableEq, Repr

/-- How one attempt behaves: how many milliseconds until `fetch` settles and
what it would deliver. -/
structure AttemptBeh where
  duration : Nat
  outcome : FetchOutcome

/-- What one attempt actually delivers, given the timeout race: when the
controller signal was passed to `fetch` (no caller signal) and the fetch is
still pending at `timeout` milliseconds, the attempt is aborted. -/
def attemptSettled (cfg : HttpConfig) (callerSignal : Bool) (a : AttemptBeh) :
    FetchOutcome :=
  if !callerSignal && decide (cfg.timeout ≤ a.duration) then .failure .abortError
  else a.outcome

/-- Whether a settled attempt is one of the two transient failures that
`shouldRetry` accepts. -/
def isTransient : FetchOutcome → Bool
  | .failure .typeErrorFetch => true
  | .failure .abortError => true
  | _ => false

/-- One observable step of `executeWithRetry`: a fetch attempt, or the
`delay(retryDelay)` wait before a retry. -/
inductive RetryEvent where
  | attempt
  | wait (ms : Nat)
deriving DecidableEq, Repr

/-- The body of the `try` of one `executeWithRetry` step: fetch settles
(subject to the timeout race) and the response is handled; the `Except` error
is the value reaching the `catch`. -/
def attemptTry (cfg : HttpConfig) (callerSignal : Bool) (a : AttemptBeh) :
    Except ThrownVal Json :=
  match attemptSettled cfg callerSignal a with
  | .response status body => handleResponse status body
  | .failure t => .error (.jsError t)

/-- `HttpClient.executeWithRetry`, returning the settled promise (`.ok` the
`ApiResponse` JSON, `.error` the thrown `ApiErrorResponse` JSON) and the trace
of attempts and waits.  `attempts i` is the behaviour of the `i`-th attempt of
this request. -/
def executeWithRetry (cfg : HttpConfig) (callerSignal : Bool)
    (attempts : Nat → AttemptBeh) (idx : Nat) (attemptsLeft : Nat) :
    Except Json Json × List RetryEvent :=
  match attemptTry cfg callerSignal (attempts idx) with
  | .ok r => (.ok r, [.attempt])
  | .error e =>
    match attemptsLeft with
    | 0 => (.error (createApiError e), [.attempt])
    | n + 1 =>
      if shouldRetry e then
        let rest := executeWithRetry cfg callerSignal attempts (idx + 1) n
        (rest.1, .attempt :: .wait cfg.retryDelay :: rest.2)
      else
        (.error (createApiError e), [.attempt])

/-- `HttpClient.request`: builds the init (whose `signal` is the caller
signal) and starts `executeWithRetry` with `this.retryAttempts` attempts
left.  As in the source, `options.timeout` is never read — the client-level
`cfg.timeout` governs every attempt. -/
def HttpClient.request (cfg : HttpConfig) (options : RequestOptions)
    (attempts : Nat → AttemptBeh) : Except Json Json × List RetryEvent :=
  executeWithRetry cfg options.signal attempts 0 cfg.retryAttempts

/-- The number of fetch attempts in a trace. -/
def countAttempts : List RetryEvent → Nat
  | [] => 0
  | .attempt :: tr => countAttempts tr + 1
  | .wait _ :: tr => countAttempts tr

/-- The waits in a trace, in order. -/
def waitsOf : List RetryEvent → List RetryEvent
  | [] => []
  | .attempt :: tr => waitsOf tr
  | .wait ms :: tr => .wait ms :: waitsOf tr

/-- The `error.code` of an error-envelope JSON value. -/
def Json.errCode (j : Json) : Option String :=
  match j.lookup "error" with
  | some e =>
    match e.lookup "code" with
    | some (.str c) => some c
    | _ => none
  | none => none

/-- The `error.code` carried by a rejected request promise. -/
def requestErrCode : Except Json Json → Option String
  | .ok _ => none
  | .error j => j.errCode

/-- Whether a request promise resolved (no throw reached the caller). -/
def requestResolved : Except Json Json → Bool
  | .ok _ => true
  | .error _ => false

/-! ## Concrete sample values used by witness and counterexample theorems -/

/-- A valid stored user. -/
def sampleUserProps : UserProps :=
  { id := "u1", email := "john@example.com", firstName := "John",
    lastName := "Doe", avatar := none, isActive := true, roles := ["user"],
    lastLoginAt := none, createdAt := 1000, updatedAt := 2000 }

/-- Props with an invalid email (violating the `User` invariant). -/
def badUserProps : UserProps :=
  { sampleUserProps with email := "not-an-email" }

/-- The user produced by changing the email of `sampleUserProps` at clock
time 2000 (the very millisecond of its `updatedAt`). -/
def sameMsUser : UserProps :=
  { sampleUserProps with email := "jane@example.com" }

/-- The user produced by changing the email of `sampleUserProps` at the
strictly later clock time 3000. -/
def bumpedUser : UserProps :=
  { sampleUserProps with email := "jane@example.com", updatedAt := 3000 }

/-- A valid stored product. -/
def sampleProductProps : ProductProps :=
  { id := "p1", name := "Widget", description := "A very nice widget",
    price := mkRat 1999 100, currency := "EUR", categoryId := "c1", images := [],
    inStock := 5, isActive := true, tags := [], createdAt := 1000,
    updatedAt := 2000 }

/-- A create-user input with an empty email (fails input validation). -/
def badCreateInput : CreateUserInput :=
  ⟨"", "John", "Doe", "12345678"⟩

/-- Benign dependency behaviour for `CreateUserUseCase`. -/
def benignCreateDeps : CreateUserDeps :=
  { emailExists := .resolves (.success false), hashResult := .resolves "h"
    save := .resolves (.success sampleUserProps)
    sendWelcomeEmail := .resolves (), uuid := "u2", now := 3000 }

/-- Benign dependency behaviour for `GetUserUseCase`. -/
def benignGetDeps : GetUserDeps :=
  ⟨.resolves (.success (some sampleUserProps))⟩

/-- An update-user input with an empty id and no updates
(fails input validation). -/
def badUpdateInput : UpdateUserInput :=
  ⟨"", ⟨none, none, none⟩⟩

/-- Benign dependency behaviour for `UpdateUserUseCase`. -/
def benignUpdateDeps : UpdateUserDeps :=
  { findById := .resolves (.success (some sampleUserProps))
    update := .resolves (.success sampleUserProps)
    logUserUpdate := none, now := 3000 }

/-- A list-users input whose status filter is invalid. -/
def badListInput : ListUsersInput :=
  ⟨⟨none, none, none, none⟩, some ⟨none, some "bogus", none, none⟩, none⟩

/-- A list-users input with empty pagination and no filters. -/
def plainListInput : ListUsersInput :=
  ⟨⟨none, none, none, none⟩, none, none⟩

/-- Benign dependency behaviour for `ListUsersUseCase`. -/
def benignListDeps : ListUsersDeps :=
  ⟨.resolves (.success [])⟩

/-- The pagination that `normalizePagination` produces from empty input. -/
def normPlainPagination : NormalizedPagination := ⟨1, 10, "createdAt", "desc"⟩

/-- The filters `buildFilters` produces from no filters and falsy
`includeInactive`. -/
def activeOnlyFilters : FilterParams := ⟨none, some "active", none, none⟩

/-- A client configuration with a 100 ms timeout. -/
def shortTimeoutCfg : HttpConfig := ⟨100, 3, 1000⟩

/-- Attempts that would deliver HTTP 200 after 500 ms. -/
def slow200Attempts : Nat → AttemptBeh := fun _ => ⟨500, .response 200 none⟩

/-- Attempts that deliver HTTP 200 after 70 ms. -/
def fast70Attempts : Nat → AttemptBeh := fun _ => ⟨70, .response 200 none⟩

/-- A default-configured client. -/
def defaultCfg : HttpConfig := ⟨10000, 3, 1000⟩

/-- Attempts whose first fetch throws a network `TypeError` and which then
deliver HTTP 200 immediately. -/
def oneNetworkErrorAttempts : Nat → AttemptBeh := fun i =>
  if i = 0 then ⟨0, .failure .typeErrorFetch⟩ else ⟨0, .response 200 none⟩

/-! ## Lemmas about entity validation -/

theorem validateEmail_ok {s : String} {v : Unit} (h : validateEmail s = .ok v) :
    emailRegexTest s = true := by
  unfold validateEmail at h
  split at h
  · exact absurd h (by simp)
  · split at h
    · exact absurd h (by simp)
    · rename_i h2
      simpa using h2

theorem validateEmail_error {s : String} {e : ErrVal}
    (h : validateEmail s = .error e) : e.isValidation = true := by
  unfold validateEmail at h
  split at h
  · cases h; rfl
  · split at h
    · cases h; rfl
    · exact absurd h (by simp)

theorem validateName_ok {s f : String} {v : Unit} (h : validateName s f = .ok v) :
    nameOk s = true := by
  unfold validateName at h
  split at h
  · exact absurd h (by simp)
  · split at h
    · exact absurd h (by simp)
    · split at h
      · exact absurd h (by simp)
      · split at h
        · exact absurd h (by simp)
        · rename_i h1 h2 h3 h4
          push_neg at h1
          simp only [nameOk, Bool.and_eq_true, decide_eq_true_eq]
          refine ⟨⟨⟨?_, by omega⟩, by omega⟩, by simpa using h4⟩
          intro hs
          exact h1.1 (by simp [hs])

theorem validateName_error {s f : String} {e : ErrVal}
    (h : validateName s f = .error e) : e.isValidation = true := by
  unfold validateName at h
  split at h
  · cases h; rfl
  · split at h
    · cases h; rfl
    · split at h
      · cases h; rfl
      · split at h
        · cases h; rfl
        · exact absurd h (by simp)

theorem mkUser_ok {p u : UserProps} (h : mkUser p = .ok u) :
    u = p ∧ userInvariant u := by
  unfold mkUser at h
  split at h
  · exact absurd h (by simp)
  · rename_i he
    split at h
    · exact absurd h (by simp)
    · rename_i hf
      split at h
      · exact absurd h (by simp)
      · rename_i hl
        cases h
        exact ⟨rfl, validateEmail_ok he, validateName_ok hf, validateName_ok hl⟩

theorem mkUser_error {p : UserProps} {e : ErrVal} (h : mkUser p = .error e) :
    e.isValidation = true := by
  unfold mkUser at h
  split at h
  · rename_i he; cases h; exact validateEmail_error he
  · split at h
    · rename_i hf; cases h; exact validateName_error hf
    · split at h
      · rename_i hl; cases h; exact validateName_error hl
      · exact absurd h (by simp)

/-- C3: every `User` observable through the public interface — built by
`User.create` or `User.fromPersistence`, or returned by any update method —
satisfies the invariant (email matches the fixed email regex; first and last
name nonempty, between 2 and 50 characters, and drawn from letters, spaces,
hyphens and apostrophes), and constructing a `User` from props violating the
invariant throws a `ValidationError` instead. -/
theorem user_invariant_preserved :
    (∀ p u, mkUser p = .ok u → userInvariant u) ∧
    (∀ p, ¬ userInvariant p → ∃ e, mkUser p = .error e ∧ e.isValidation = true) ∧
    (∀ email firstName lastName avatar isActive roles lastLoginAt uuid now u,
      User.create email firstName lastName avatar isActive roles lastLoginAt
        uuid now = .ok u → userInvariant u) ∧
    (∀ p u, User.fromPersistence p = .ok u → userInvariant u) ∧
    (∀ u up now v, User.updateProfile u up now = .ok v → userInvariant v) ∧
    (∀ u e now v, User.changeEmail u e now = .ok v → userInvariant v) ∧
    (∀ u now v, User.activate u now = .ok v → userInvariant v) ∧
    (∀ u now v, User.deactivate u now = .ok v → userInvariant v) ∧
    (∀ u now v, User.updateLastLogin u now = .ok v → userInvariant v) ∧
    (∀ u role now v, User.addRole u role now = .ok v → userInvariant v) ∧
    (∀ u role now v, User.removeRole u role now = .ok v → userInvariant v) := by
  refine ⟨fun p u h => (mkUser_ok h).2, ?_, ?_, ?_, ?_, ?_, ?_, ?_, ?_, ?_, ?_⟩
  · intro p hp
    cases hm : mkUser p with
    | ok v =>
      obtain ⟨hv, hinv⟩ := mkUser_ok hm
      exact absurd (hv ▸ hinv) hp
    | error e => exact ⟨e, rfl, mkUser_error hm⟩
  · intro email firstName lastName avatar isActive roles lastLoginAt uuid now u h
    exact (mkUser_ok h).2
  · intro p u h
    exact (mkUser_ok h).2
  · intro u up now v h
    unfold User.updateProfile at h
    split at h
    · exact absurd h (by simp)
    · split at h
      · exact absurd h (by simp)
      · split at h
        · exact absurd h (by simp)
        · exact (mkUser_ok h).2
  · intro u e now v h
    unfold User.changeEmail at h
    split at h
    · exact absurd h (by simp)
    · split at h
      · exact absurd h (by simp)
      · exact (mkUser_ok h).2
  · intro u now v h
    unfold User.activate at h
    split at h
    · exact absurd h (by simp)
    · exact (mkUser_ok h).2
  · intro u now v h
    unfold User.deactivate at h
    split at h
    · exact absurd h (by simp)
    · exact (mkUser_ok h).2
  · intro u now v h
    exact (mkUser_ok h).2
  · intro u role now v h
    unfold User.addRole at h
    split at h
    · exact absurd h (by simp)
    · exact (mkUser_ok h).2
  · intro u role now v h
    unfold User.removeRole at h
    split at h
    · exact absurd h (by simp)
    · exact (mkUser_ok h).2

/-- Witness for C3 at concrete inputs: a valid user satisfies the invariant
and invalid props are rejected with a `ValidationError`. -/
theorem user_invariant_preserved_witness :
    userInvariant sampleUserProps ∧
    (∃ e, mkUser badUserProps = .error e ∧ e.isValidation = true) :=
  ⟨user_invariant_preserved.1 sampleUserProps sampleUserProps rfl,
   user_invariant_preserved.2.1 badUserProps (by decide)⟩

/-- C4 counterexample: `changeEmail` invoked in the very millisecond of the
previous update returns a user whose `updatedAt` equals — is not strictly
later than — the original `updatedAt`.  Only `updateProfile` guards against
this; the other update methods store the current clock time as-is. -/
theorem user_update_same_ms_counterexample :
    User.changeEmail sampleUserProps "jane@example.com" sampleUserProps.updatedAt =
      .ok sameMsUser ∧
    sameMsUser.updatedAt = sampleUserProps.updatedAt :=
  ⟨rfl, rfl⟩

/-- C4 amended: every update method returns a new `User` with `id` and
`createdAt` unchanged; `updateProfile` sets an `updatedAt` strictly later
than the original whenever the clock has not gone backwards (bumping by one
millisecond inside the same millisecond), while the remaining update methods
set `updatedAt` to the current clock time, strictly later only when the
clock strictly advanced.  (The original instance is untouched: operations
are pure functions of it.) -/
theorem user_update_identity_and_bump :
    (∀ u up now v, User.updateProfile u up now = .ok v →
      v.id = u.id ∧ v.createdAt = u.createdAt ∧
      (u.updatedAt ≤ now → u.updatedAt < v.updatedAt)) ∧
    (∀ u e now v, User.changeEmail u e now = .ok v →
      v.id = u.id ∧ v.createdAt = u.createdAt ∧ v.updatedAt = now) ∧
    (∀ u now v, User.activate u now = .ok v →
      v.id = u.id ∧ v.createdAt = u.createdAt ∧ v.updatedAt = now) ∧
    (∀ u now v, User.deactivate u now = .ok v →
      v.id = u.id ∧ v.createdAt = u.createdAt ∧ v.updatedAt = now) ∧
    (∀ u now v, User.updateLastLogin u now = .ok v →
      v.id = u.id ∧ v.createdAt = u.createdAt ∧ v.updatedAt = now) ∧
    (∀ u role now v, User.addRole u role now = .ok v →
      v.id = u.id ∧ v.createdAt = u.createdAt ∧ v.updatedAt = now) ∧
    (∀ u role now v, User.removeRole u role now = .ok v →
      v.id = u.id ∧ v.createdAt = u.createdAt ∧ v.updatedAt = now) := by
  refine ⟨?_, ?_, ?_, ?_, ?_, ?_, ?_⟩
  · intro u up now v h
    unfold User.updateProfile at h
    split at h
    · exact absurd h (by simp)
    · split at h
      · exact absurd h (by simp)
      · split at h
        · exact absurd h (by simp)
        · obtain ⟨hv, _⟩ := mkUser_ok h
          subst hv
          refine ⟨rfl, rfl, fun hle => ?_⟩
          simp only [mergeProfile]
          split
          · omega
          · rename_i hn
            omega
  · intro u e now v h
    unfold User.changeEmail at h
    split at h
    · exact absurd h (by simp)
    · split at h
      · exact absurd h (by simp)
      · obtain ⟨hv, _⟩ := mkUser_ok h
        subst hv
        exact ⟨rfl, rfl, rfl⟩
  · intro u now v h
    unfold User.activate at h
    split at h
    · exact absurd h (by simp)
    · obtain ⟨hv, _⟩ := mkUser_ok h
      subst hv
      exact ⟨rfl, rfl, rfl⟩
  · intro u now v h
    unfold User.deactivate at h
    split at h
    · exact absurd h (by simp)
    · obtain ⟨hv, _⟩ := mkUser_ok h
      subst hv
      exact ⟨rfl, rfl, rfl⟩
  · intro u now v h
    obtain ⟨hv, _⟩ := mkUser_ok h
    subst hv
    exact ⟨rfl, rfl, rfl⟩
  · intro u role now v h
    unfold User.addRole at h
    split at h
    · exact absurd h (by simp)
    · obtain ⟨hv, _⟩ := mkUser_ok h
      subst hv
      exact ⟨rfl, rfl, rfl⟩
  · intro u role now v h
    unfold User.removeRole at h
    split at h
    · exact absurd h (by simp)
    · obtain ⟨hv, _⟩ := mkUser_ok h
      subst hv
      exact ⟨rfl, rfl, rfl⟩

/-- Witness for the amended C4 at a concrete input: changing the email at a
strictly later clock time keeps `id`/`createdAt` and stores the new time. -/
theorem user_update_identity_and_bump_witness :
    bumpedUser.id = sampleUserProps.id ∧
    bumpedUser.createdAt = sampleUserProps.createdAt ∧
    bumpedUser.updatedAt = 3000 :=
  user_update_identity_and_bump.2.1 sampleUserProps "jane@example.com" 3000
    bumpedUser rfl

/-! ## Lemmas about `Product` validation -/

theorem validateProductName_ok {s : String} {v : Unit}
    (h : validateProductName s = .ok v) : 2 ≤ s.length ∧ s.length ≤ 100 := by
  unfold validateProductName at h
  split at h
  · exact absurd h (by simp)
  · split at h
    · exact absurd h (by simp)
    · split at h
      · exact absurd h (by simp)
      · rename_i h1 h2 h3
        omega

theorem validateDescription_ok {s : String} {v : Unit}
    (h : validateDescription s = .ok v) : 10 ≤ s.length ∧ s.length ≤ 1000 := by
  unfold validateDescription at h
  split at h
  · exact absurd h (by simp)
  · split at h
    · exact absurd h (by simp)
    · split at h
      · exact absurd h (by simp)
      · rename_i h1 h2 h3
        omega

theorem validatePrice_ok {q : Rat} {v : Unit} (h : validatePrice q = .ok v) :
    0 ≤ q ∧ q ≤ mkRat 99999999 100 := by
  unfold validatePrice at h
  split at h
  · exact absurd h (by simp)
  · split at h
    · exact absurd h (by simp)
    · rename_i h1 h2
      exact ⟨not_lt.mp h1, not_lt.mp h2⟩

theorem validateStock_ok {q : Rat} {v : Unit} (h : validateStock q = .ok v) :
    0 ≤ q ∧ q.den = 1 := by
  unfold validateStock at h
  split at h
  · exact absurd h (by simp)
  · split at h
    · exact absurd h (by simp)
    · rename_i h1 h2
      exact ⟨not_lt.mp h1, by simpa using h2⟩

theorem mkProduct_ok {p q : ProductProps} (h : mkProduct p = .ok q) :
    q = p ∧ productInvariant q := by
  unfold mkProduct at h
  split at h
  · exact absurd h (by simp)
  · rename_i hn
    split at h
    · exact absurd h (by simp)
    · rename_i hd
      split at h
      · exact absurd h (by simp)
      · rename_i hp
        split at h
        · exact absurd h (by simp)
        · rename_i hs
          cases h
          obtain ⟨hp1, hp2⟩ := validatePrice_ok hp
          obtain ⟨hs1, hs2⟩ := validateStock_ok hs
          obtain ⟨hn1, hn2⟩ := validateProductName_ok hn
          obtain ⟨hd1, hd2⟩ := validateDescription_ok hd
          exact ⟨rfl, hp1, hp2, hs1, hs2, hn1, hn2, hd1, hd2⟩

/-- C9: every `Product` observable through the public interface — built by
`Product.create` or `Product.fromPersistence`, or returned by any update
method — satisfies the invariant (price in `[0, 999999.99]`, stock a
nonnegative integer, name and description within their length bounds); every
operation preserves the invariant because each one funnels its result through
the validating constructor. -/
theorem product_invariant_preserved :
    (∀ p q, mkProduct p = .ok q → productInvariant q) ∧
    (∀ name description price currency categoryId images inStock isActive
       tags uuid now q,
      Product.create name description price currency categoryId images
        inStock isActive tags uuid now = .ok q → productInvariant q) ∧
    (∀ p q, Product.fromPersistence p = .ok q → productInvariant q) ∧
    (∀ p up now q, Product.updateBasicInfo p up now = .ok q → productInvariant q) ∧
    (∀ p s now q, Product.updateStock p s now = .ok q → productInvariant q) ∧
    (∀ p n now q, Product.reduceStock p n now = .ok q → productInvariant q) ∧
    (∀ p n now q, Product.addStock p n now = .ok q → productInvariant q) ∧
    (∀ p url now q, Product.addImage p url now = .ok q → productInvariant q) ∧
    (∀ p url now q, Product.removeImage p url now = .ok q → productInvariant q) ∧
    (∀ p t now q, Product.addTag p t now = .ok q → productInvariant q) ∧
    (∀ p t now q, Product.removeTag p t now = .ok q → productInvariant q) ∧
    (∀ p now q, Product.activate p now = .ok q → productInvariant q) ∧
    (∀ p now q, Product.deactivate p now = .ok q → productInvariant q) := by
  refine ⟨fun p q h => (mkProduct_ok h).2, ?_, ?_, ?_, ?_, ?_, ?_, ?_, ?_, ?_, ?_, ?_, ?_⟩
  · intro name description price currency categoryId images inStock isActive tags uuid now q h
    exact (mkProduct_ok h).2
  · intro p q h
    exact (mkProduct_ok h).2
  · intro p up now q h
    unfold Product.updateBasicInfo at h
    split at h
    · exact absurd h (by simp)
    · split at h
      · exact absurd h (by simp)
      · split at h
        · exact absurd h (by simp)
        · exact (mkProduct_ok h).2
  · intro p s now q h
    unfold Product.updateStock at h
    split at h
    · exact absurd h (by simp)
    · exact (mkProduct_ok h).2
  · intro p n now q h
    unfold Product.reduceStock at h
    split at h
    · exact absurd h (by simp)
    · split at h
      · exact absurd h (by simp)
      · exact (mkProduct_ok h).2
  · intro p n now q h
    unfold Product.addStock at h
    split at h
    · exact absurd h (by simp)
    · exact (mkProduct_ok h).2
  · intro p url now q h
    unfold Product.addImage at h
    split at h
    · exact absurd h (by simp)
    · split at h
      · exact absurd h (by simp)
      · exact (mkProduct_ok h).2
  · intro p url now q h
    unfold Product.removeImage at h
    split at h
    · exact absurd h (by simp)
    · exact (mkProduct_ok h).2
  · intro p t now q h
    unfold Product.addTag at h
    split at h
    · exact absurd h (by simp)
    · split at h
      · exact absurd h (by simp)
      · exact (mkProduct_ok h).2
  · intro p t now q h
    unfold Product.removeTag at h
    split at h
    · exact absurd h (by simp)
    · exact (mkProduct_ok h).2
  · intro p now q h
    unfold Product.activate at h
    split at h
    · exact absurd h (by simp)
    · exact (mkProduct_ok h).2
  · intro p now q h
    unfold Product.deactivate at h
    split at h
    · exact absurd h (by simp)
    · exact (mkProduct_ok h).2

/-- Witness for C9 at a concrete input: a valid stored product satisfies the
invariant. -/
theorem product_invariant_preserved_witness :
    productInvariant sampleProductProps :=
  product_invariant_preserved.1 sampleProductProps sampleProductProps rfl

/-! ## Use-case theorems -/

theorem jsTryCatch_total {α : Type} (msg : String)
    (x : Except Thrown (UResult α)) : ∃ r, jsTryCatch msg x = .ok r := by
  cases x with
  | ok r => exact ⟨r, rfl⟩
  | error t => exact ⟨jsCatchErr msg t, rfl⟩

/-- C5: for every input and every dependency behaviour — including
dependencies whose promises reject — `execute` of each of the four use cases
returns a resolved promise carrying a `Result` value (`success` or
`failure`); no rejection crosses the async boundary, because the whole body
sits inside a `try`/`catch` that converts any thrown value into a failure
`Result`. -/
theorem useCases_always_resolve :
    (∀ (i : CreateUserInput) (d : CreateUserDeps),
      ∃ r, (CreateUserUseCase.execute i d).1 = .ok r) ∧
    (∀ (i : GetUserInput) (d : GetUserDeps),
      ∃ r, (GetUserUseCase.execute i d).1 = .ok r) ∧
    (∀ (urlValid : String → Bool) (i : UpdateUserInput) (d : UpdateUserDeps),
      ∃ r, (UpdateUserUseCase.execute urlValid i d).1 = .ok r) ∧
    (∀ (i : ListUsersInput) (d : ListUsersDeps),
      ∃ r, (ListUsersUseCase.execute i d).1 = .ok r) :=
  ⟨fun i d => jsTryCatch_total _ (CreateUserUseCase.executeBody i d).1,
   fun i d => jsTryCatch_total _ (GetUserUseCase.executeBody i d).1,
   fun urlValid i d => jsTryCatch_total _ (UpdateUserUseCase.executeBody urlValid i d).1,
   fun i d => jsTryCatch_total _ (ListUsersUseCase.executeBody i d).1⟩

/-- C6: whenever the input fails the input validation of a use case,
`execute` resolves with that failure `Result` and the call trace is empty —
no repository, password-hasher, email-service or audit-logger method is
invoked on that execution. -/
theorem useCases_short_circuit :
    (∀ i d e, CreateUserUseCase.validateInput i = .failure e →
      CreateUserUseCase.execute i d = (.ok (.failure e), [])) ∧
    (∀ (i : GetUserInput) (d : GetUserDeps),
      (i.id.length = 0 ∨ jsBlank i.id = true) →
      GetUserUseCase.execute i d =
        (.ok (.failure (.domainError "Benutzer-ID ist erforderlich" "INVALID_INPUT")), [])) ∧
    (∀ urlValid i d e, UpdateUserUseCase.validateInput urlValid i = .failure e →
      UpdateUserUseCase.execute urlValid i d = (.ok (.failure e), [])) ∧
    (∀ i d e, ListUsersUseCase.validateFilters i.filters = .failure e →
      ListUsersUseCase.execute i d = (.ok (.failure e), [])) := by
  refine ⟨?_, ?_, ?_, ?_⟩
  · intro i d e h
    simp only [CreateUserUseCase.execute, CreateUserUseCase.executeBody, h, jsTryCatch]
  · intro i d h
    simp only [GetUserUseCase.execute, GetUserUseCase.executeBody, if_pos h, jsTryCatch]
  · intro urlValid i d e h
    simp only [UpdateUserUseCase.execute, UpdateUserUseCase.executeBody, h, jsTryCatch]
  · intro i d e h
    simp only [ListUsersUseCase.execute, ListUsersUseCase.executeBody, h, jsTryCatch]

/-- Witness for C6 at concrete invalid inputs for all four use cases. -/
theorem useCases_short_circuit_witness :
    CreateUserUseCase.execute badCreateInput benignCreateDeps =
      (.ok (.failure (.validationError "E-Mail ist erforderlich" "email")), []) ∧
    GetUserUseCase.execute ⟨""⟩ benignGetDeps =
      (.ok (.failure (.domainError "Benutzer-ID ist erforderlich" "INVALID_INPUT")), []) ∧
    UpdateUserUseCase.execute (fun _ => true) badUpdateInput benignUpdateDeps =
      (.ok (.failure (.domainError
        "Benutzer-ID ist erforderlich, Mindestens eine Aenderung ist erforderlich"
        "VALIDATION_ERROR")), []) ∧
    ListUsersUseCase.execute badListInput benignListDeps =
      (.ok (.failure (.domainError "Ungueltiger Status-Filter" "VALIDATION_ERROR")), []) :=
  ⟨useCases_short_circuit.1 badCreateInput benignCreateDeps _ rfl,
   useCases_short_circuit.2.1 ⟨""⟩ benignGetDeps (by decide),
   useCases_short_circuit.2.2.1 (fun _ => true) badUpdateInput benignUpdateDeps _ rfl,
   useCases_short_circuit.2.2.2 badListInput benignListDeps _ rfl⟩

/-- C7: the `Result` of `CreateUserUseCase.execute` does not depend on the
welcome-email side effect: two executions identical except for how
`emailService.sendWelcomeEmail` settles produce the same resolved promise
and the same call trace — the call is fired but not awaited, and its failure
is swallowed inside `sendWelcomeEmailAsync`. -/
theorem welcomeEmail_noninterference :
    ∀ (i : CreateUserInput) (d : CreateUserDeps) (o1 o2 : AsyncOutcome Unit),
      CreateUserUseCase.execute i { d with sendWelcomeEmail := o1 } =
      CreateUserUseCase.execute i { d with sendWelcomeEmail := o2 } := by
  intro i d o1 o2
  cases d
  rfl

theorem listUsers_trace (i : ListUsersInput) (d : ListUsersDeps) :
    (ListUsersUseCase.executeBody i d).2 = [] ∨
    (ListUsersUseCase.executeBody i d).2 =
      [.findAll (ListUsersUseCase.normalizePagination i.pagination)
        (ListUsersUseCase.buildFilters i.filters i.includeInactive)] := by
  unfold ListUsersUseCase.executeBody
  cases ListUsersUseCase.validateFilters i.filters with
  | failure e => exact Or.inl rfl
  | success u =>
    cases hf : d.findAll with
    | rejects t => exact Or.inr rfl
    | resolves r =>
      cases r with
      | failure e => exact Or.inr rfl
      | success users => exact Or.inr rfl

/-- C8: every call of `userRepository.findAll` issued by
`ListUsersUseCase.execute` carries clamped pagination:
`page = max(1, input.page or 1)`,
`pageSize = min(100, max(5, input.pageSize or 10))`, `sortBy` defaulting to
`createdAt` and `sortOrder` to `desc`; hence the repository always sees
`page >= 1` and `5 <= pageSize <= 100`. -/
theorem listUsers_pagination_clamped :
    ∀ (i : ListUsersInput) (d : ListUsersDeps) (np : NormalizedPagination)
      (f : FilterParams),
      ListUsersCall.findAll np f ∈ (ListUsersUseCase.execute i d).2 →
      np.page = max 1 (jsOrRat i.pagination.page 1) ∧
      np.pageSize = min 100 (max 5 (jsOrRat i.pagination.pageSize 10)) ∧
      np.sortBy = jsOrStr i.pagination.sortBy "createdAt" ∧
      np.sortOrder = jsOrStr i.pagination.sortOrder "desc" ∧
      1 ≤ np.page ∧ 5 ≤ np.pageSize ∧ np.pageSize ≤ 100 := by
  intro i d np f hmem
  have htrace : (ListUsersUseCase.execute i d).2 = (ListUsersUseCase.executeBody i d).2 := rfl
  rw [htrace] at hmem
  rcases listUsers_trace i d with h | h
  · rw [h] at hmem
    simp at hmem
  · rw [h] at hmem
    rw [List.mem_singleton] at hmem
    obtain ⟨hnp, -⟩ := by simpa [ListUsersCall.findAll.injEq] using hmem
    subst hnp
    refine ⟨rfl, rfl, rfl, rfl, le_max_left 1 _, le_min (by norm_num) (le_max_left 5 _),
      min_le_left 100 _⟩

/-- Witness for C8 at a concrete input: empty pagination is normalized to
page 1, page size 10, sorted by `createdAt` descending. -/
theorem listUsers_pagination_clamped_witness :
    normPlainPagination.page = max 1 (jsOrRat plainListInput.pagination.page 1) ∧
    normPlainPagination.pageSize =
      min 100 (max 5 (jsOrRat plainListInput.pagination.pageSize 10)) ∧
    normPlainPagination.sortBy = jsOrStr plainListInput.pagination.sortBy "createdAt" ∧
    normPlainPagination.sortOrder = jsOrStr plainListInput.pagination.sortOrder "desc" ∧
    1 ≤ normPlainPagination.page ∧ 5 ≤ normPlainPagination.pageSize ∧
    normPlainPagination.pageSize ≤ 100 :=
  listUsers_pagination_clamped plainListInput benignListDeps
    normPlainPagination activeOnlyFilters (by decide)

/-- C10: the filters handed to `userRepository.findAll` restrict the listing
to active users exactly when `includeInactive` is falsy and no (truthy)
status filter was supplied; when `includeInactive` is `true` or a truthy
status filter is given, the input filters pass through unchanged.  (JS
truthiness: an `undefined` or empty-string status counts as not supplied.) -/
theorem listUsers_default_active_filter :
    ∀ (i : ListUsersInput) (d : ListUsersDeps) (np : NormalizedPagination)
      (f : FilterParams),
      ListUsersCall.findAll np f ∈ (ListUsersUseCase.execute i d).2 →
      ((jsTruthyBool i.includeInactive = false ∧
        jsTruthyStr (i.filters.getD emptyFilters).status = false) →
        f = { i.filters.getD emptyFilters with status := some "active" }) ∧
      ((jsTruthyBool i.includeInactive = true ∨
        jsTruthyStr (i.filters.getD emptyFilters).status = true) →
        f = i.filters.getD emptyFilters) := by
  intro i d np f hmem
  have htrace : (ListUsersUseCase.execute i d).2 = (ListUsersUseCase.executeBody i d).2 := rfl
  rw [htrace] at hmem
  rcases listUsers_trace i d with h | h
  · rw [h] at hmem
    simp at hmem
  · rw [h] at hmem
    rw [List.mem_singleton] at hmem
    obtain ⟨-, hf⟩ := by simpa [ListUsersCall.findAll.injEq] using hmem
    subst hf
    constructor
    · rintro ⟨h1, h2⟩
      unfold ListUsersUseCase.buildFilters
      simp [h1, h2]
    · rintro (h1 | h1) <;>
        · unfold ListUsersUseCase.buildFilters
          simp [h1]

/-- Witness for C10 at a concrete input: with no filters and no
`includeInactive` flag, the repository receives a status filter of
`active`. -/
theorem listUsers_default_active_filter_witness :
    activeOnlyFilters =
      { plainListInput.filters.getD emptyFilters with status := some "active" } :=
  (listUsers_default_active_filter plainListInput benignListDeps
    normPlainPagination activeOnlyFilters (by decide)).1 (by decide)

/-! ## HTTP client theorems -/

theorem handleResponse_error {status : Nat} {body : Option Json} {e : ThrownVal}
    (h : handleResponse status body = .error e) : ∃ j, e = .plainObj j := by
  unfold handleResponse at h
  split at h
  · exact ⟨_, by cases h; rfl⟩
  · split at h
    · exact absurd h (by simp)
    · exact absurd h (by simp)

theorem retried_attempt_transient {cfg : HttpConfig} {cs : Bool} {a : AttemptBeh}
    {e : ThrownVal} (h : attemptTry cfg cs a = .error e)
    (hr : shouldRetry e = true) : isTransient (attemptSettled cfg cs a) = true := by
  cases hs : attemptSettled cfg cs a with
  | response status body =>
    have h2 : handleResponse status body = .error e := by
      unfold attemptTry at h
      rw [hs] at h
      exact h
    obtain ⟨j, rfl⟩ := handleResponse_error h2
    simp [shouldRetry] at hr
  | failure t =>
    have h2 : (Except.error (.jsError t) : Except ThrownVal Json) = .error e := by
      unfold attemptTry at h
      rw [hs] at h
      exact h
    cases h2
    cases t with
    | typeErrorFetch => rfl
    | abortError => rfl
    | otherError msg => simp [shouldRetry] at hr

theorem isTransient_cases {o : FetchOutcome} (h : isTransient o = true) :
    o = .failure .typeErrorFetch ∨ o = .failure .abortError := by
  cases o with
  | response status body => simp [isTransient] at h
  | failure t =>
    cases t with
    | typeErrorFetch => exact Or.inl rfl
    | abortError => exact Or.inr rfl
    | otherError msg => simp [isTransient] at h

theorem ewr_count_le (cfg : HttpConfig) (cs : Bool) (attempts : Nat → AttemptBeh) :
    ∀ n idx, countAttempts (executeWithRetry cfg cs attempts idx n).2 ≤ n + 1 := by
  intro n
  induction n with
  | zero =>
    intro idx
    unfold executeWithRetry
    cases attemptTry cfg cs (attempts idx) <;> simp [countAttempts]
  | succ m ih =>
    intro idx
    unfold executeWithRetry
    cases attemptTry cfg cs (attempts idx) with
    | ok r => simp [countAttempts]
    | error e =>
      by_cases hr : shouldRetry e = true
      · simp only [hr, if_true]
        have := ih (idx + 1)
        simp [countAttempts]
        omega
      · simp [hr, countAttempts]

theorem ewr_count_pos (cfg : HttpConfig) (cs : Bool) (attempts : Nat → AttemptBeh) :
    ∀ n idx, 1 ≤ countAttempts (executeWithRetry cfg cs attempts idx n).2 := by
  intro n idx
  unfold executeWithRetry
  cases attemptTry cfg cs (attempts idx) with
  | ok r => simp [countAttempts]
  | error e =>
    cases n with
    | zero => simp [countAttempts]
    | succ m =>
      by_cases hr : shouldRetry e = true
      · simp [hr, countAttempts]
      · simp [hr, countAttempts]

theorem ewr_transient (cfg : HttpConfig) (cs : Bool) (attempts : Nat → AttemptBeh) :
    ∀ n idx i, i + 1 < countAttempts (executeWithRetry cfg cs attempts idx n).2 →
      isTransient (attemptSettled cfg cs (attempts (idx + i))) = true := by
  intro n
  induction n with
  | zero =>
    intro idx i hi
    have hle := ewr_count_le cfg cs attempts 0 idx
    omega
  | succ m ih =>
    intro idx i
    unfold executeWithRetry
    cases h : attemptTry cfg cs (attempts idx) with
    | ok r =>
      intro hi
      simp [countAttempts] at hi
    | error e =>
      by_cases hr : shouldRetry e = true
      · simp only [hr, if_true]
        intro hi
        simp only [countAttempts] at hi
        cases i with
        | zero =>
          have := retried_attempt_transient h hr
          simpa using this
        | succ j =>
          have hj : j + 1 < countAttempts (executeWithRetry cfg cs attempts (idx + 1) m).2 := by
            omega
          have ht := ih (idx + 1) j hj
          have harith : idx + 1 + j = idx + (j + 1) := by omega
          rw [harith] at ht
          exact ht
      · simp only [hr]
        intro hi
        simp [countAttempts] at hi

theorem ewr_waits (cfg : HttpConfig) (cs : Bool) (attempts : Nat → AttemptBeh) :
    ∀ n idx, waitsOf (executeWithRetry cfg cs attempts idx n).2 =
      List.replicate (countAttempts (executeWithRetry cfg cs attempts idx n).2 - 1)
        (.wait cfg.retryDelay) := by
  intro n
  induction n with
  | zero =>
    intro idx
    unfold executeWithRetry
    cases attemptTry cfg cs (attempts idx) <;> simp [waitsOf, countAttempts]
  | succ m ih =>
    intro idx
    unfold executeWithRetry
    cases attemptTry cfg cs (attempts idx) with
    | ok r => simp [waitsOf, countAttempts]
    | error e =>
      by_cases hr : shouldRetry e = true
      · simp only [hr, if_true]
        have hpos := ewr_count_pos cfg cs attempts m (idx + 1)
        have hw := ih (idx + 1)
        simp only [waitsOf, countAttempts, hw]
        obtain ⟨k, hk⟩ : ∃ k, countAttempts (executeWithRetry cfg cs attempts (idx + 1) m).2 =
            k + 1 :=
          ⟨countAttempts (executeWithRetry cfg cs attempts (idx + 1) m).2 - 1, by omega⟩
        rw [hk]
        simp [List.replicate_succ]
      · simp [hr, waitsOf, countAttempts]

/-- C1: the retry policy of `HttpClient`.  For every request, (a) the client
performs at most `retryAttempts` retries (`retryAttempts + 1` attempts), (b)
every attempt that is followed by a retry ended in a transient failure — a
fetch `TypeError` or an `AbortError` — so a non-2xx HTTP response (whose
thrown envelope is not an `Error` instance) is never retried, (c) each retry
is preceded by exactly one fixed `retryDelay` wait, and (d) `retryAttempts`
defaults to `API_CONFIG.retryAttempts = 3`. -/
theorem httpClient_retry_policy :
    ∀ (cfg : HttpConfig) (options : RequestOptions) (attempts : Nat → AttemptBeh),
      countAttempts (HttpClient.request cfg options attempts).2 ≤ cfg.retryAttempts + 1 ∧
      (∀ i, i + 1 < countAttempts (HttpClient.request cfg options attempts).2 →
        attemptSettled cfg options.signal (attempts i) = .failure .typeErrorFetch ∨
        attemptSettled cfg options.signal (attempts i) = .failure .abortError) ∧
      waitsOf (HttpClient.request cfg options attempts).2 =
        List.replicate (countAttempts (HttpClient.request cfg options attempts).2 - 1)
          (.wait cfg.retryDelay) ∧
      (∀ o : HttpClientOptions, o.retryAttempts = none →
        (HttpClient.mkConfig o).retryAttempts = 3) := by
  intro cfg options attempts
  refine ⟨ewr_count_le cfg options.signal attempts cfg.retryAttempts 0, ?_,
    ewr_waits cfg options.signal attempts cfg.retryAttempts 0, ?_⟩
  · intro i hi
    have ht := ewr_transient cfg options.signal attempts cfg.retryAttempts 0 i hi
    rw [Nat.zero_add] at ht
    exact isTransient_cases ht
  · intro o ho
    simp [HttpClient.mkConfig, ho, jsOrNat]

/-- Witness for C1 at a concrete request: the first attempt fails with a
network `TypeError` and is retried, and the default configuration carries
3 retry attempts. -/
theorem httpClient_retry_policy_witness :
    (attemptSettled defaultCfg false (oneNetworkErrorAttempts 0) = .failure .typeErrorFetch ∨
     attemptSettled defaultCfg false (oneNetworkErrorAttempts 0) = .failure .abortError) ∧
    (HttpClient.mkConfig ⟨none, none, none⟩).retryAttempts = 3 := by
  have h := httpClient_retry_policy defaultCfg ⟨none, false⟩ oneNetworkErrorAttempts
  exact ⟨h.2.1 0 (by decide), h.2.2.2 ⟨none, none, none⟩ rfl⟩

/-- C2 counterexample.  First scenario: the caller supplies an `AbortSignal`
(`signal := true`); with a 100 ms timeout every attempt is still unanswered at
the timeout (500 ms fetch), yet the request resolves with the 200 response
after one attempt and no `TIMEOUT_ERROR` — because
`signal: init.signal || controller.signal` drops the timeout controller.
Second scenario: a per-request `timeout` option of 50 ms is ignored — an
attempt pending at 70 ms (past that option, below the client-level 100 ms)
is not aborted and the request resolves. -/
theorem httpClient_timeout_claim_counterexample :
    requestResolved (HttpClient.request shortTimeoutCfg ⟨none, true⟩ slow200Attempts).1 = true ∧
    requestErrCode (HttpClient.request shortTimeoutCfg ⟨none, true⟩ slow200Attempts).1 = none ∧
    countAttempts (HttpClient.request shortTimeoutCfg ⟨none, true⟩ slow200Attempts).2 = 1 ∧
    shortTimeoutCfg.timeout ≤ (slow200Attempts 0).duration ∧
    requestResolved (HttpClient.request shortTimeoutCfg ⟨some 50, false⟩ fast70Attempts).1 = true ∧
    (50 : Nat) ≤ (fast70Attempts 0).duration ∧
    (fast70Attempts 0).duration < shortTimeoutCfg.timeout :=
  ⟨rfl, rfl, rfl, by decide, rfl, by decide, by decide⟩

theorem ewr_all_timeout (cfg : HttpConfig) (attempts : Nat → AttemptBeh)
    (hall : ∀ i, cfg.timeout ≤ (attempts i).duration) :
    ∀ n idx, (executeWithRetry cfg false attempts idx n).1 =
      .error (createApiError (.jsError .abortError)) := by
  intro n
  induction n with
  | zero =>
    intro idx
    have hs : attemptSettled cfg false (attempts idx) = .failure .abortError := by
      simp [attemptSettled, hall idx]
    unfold executeWithRetry
    simp [attemptTry, hs]
  | succ m ih =>
    intro idx
    have hs : attemptSettled cfg false (attempts idx) = .failure .abortError := by
      simp [attemptSettled, hall idx]
    unfold executeWithRetry
    simp [attemptTry, hs, shouldRetry]
    exact ih (idx + 1)

/-- C2 amended: the client applies its client-level timeout to every attempt
of a request issued without a caller-supplied `AbortSignal`: such an attempt
still unanswered when the timeout elapses is aborted, and when every attempt
times out the request fails, once retries are exhausted, with an error whose
code is `TIMEOUT_ERROR`.  (A caller-supplied signal replaces the timeout
controller signal, and the per-request timeout option is never read — see the
counterexample.) -/
theorem httpClient_timeout_behavior :
    (∀ (cfg : HttpConfig) (a : AttemptBeh), cfg.timeout ≤ a.duration →
      attemptSettled cfg false a = .failure .abortError) ∧
    (∀ (cfg : HttpConfig) (options : RequestOptions) (attempts : Nat → AttemptBeh),
      options.signal = false →
      (∀ i, cfg.timeout ≤ (attempts i).duration) →
      requestErrCode (HttpClient.request cfg options attempts).1 = some "TIMEOUT_ERROR") := by
  constructor
  · intro cfg a ha
    simp [attemptSettled, ha]
  · intro cfg options attempts hsig hall
    have h1 := ewr_all_timeout cfg attempts hall cfg.retryAttempts 0
    unfold HttpClient.request requestErrCode
    rw [hsig, h1]
    rfl

/-- Witness for the amended C2 at a concrete request: with a 100 ms timeout
and 500 ms fetches, the attempt is aborted and the request ends with
`TIMEOUT_ERROR`. -/
theorem httpClient_timeout_behavior_witness :
    attemptSettled shortTimeoutCfg false (slow200Attempts 0) = .failure .abortError ∧
    requestErrCode (HttpClient.request shortTimeoutCfg ⟨none, false⟩ slow200Attempts).1 =
      some "TIMEOUT_ERROR" :=
  ⟨httpClient_timeout_behavior.1 shortTimeoutCfg (slow200Attempts 0) (by decide),
   httpClient_timeout_behavior.2 shortTimeoutCfg ⟨none, false⟩ slow200Attempts rfl
     (fun i => by norm_num [slow200Attempts, shortTimeoutCfg])⟩

end RCA
